import Mathlib

/-!
Shallow embedding of `generate_wallpaper.py` (daily-wallpaper repository).

Conventions of the embedding:
* Python machine integers are `Int` (they are unbounded in Python as well).
* Python floats are modelled as exact rationals `ℚ`; the float literals
  `1.8`, `0.6` of the source become `9/5`, `3/5`.
* `int(x)` applied to a float is truncation toward zero: `truncQ`.
* `//` on integers is Python floor division: `Int.fdiv`.
* `%` on floats follows Python semantics (result has the sign of the
  divisor): for a positive modulus `m`, `x % m = x - m * ⌊x / m⌋`.
-/

namespace Wallpaper

/-- Truncation toward zero of a rational, the meaning of Python `int(x)`
for a float `x`. -/
def truncQ (q : ℚ) : Int := Int.tdiv q.num q.den

/-- The `SafeZone` dataclass: region to avoid placing content (pixels from edge). -/
structure SafeZone where
  top : Int
  bottom : Int
  left : Int
  right : Int
deriving DecidableEq

/-- The `DeviceProfile` dataclass: screen resolution and lock screen safe zones. -/
structure DeviceProfile where
  name : String
  width : Int
  height : Int
  safe_zone : SafeZone
deriving DecidableEq

/-- Property `DeviceProfile.content_bounds`: usable content area after applying safe
zones, as `(left, top, right, bottom)`. -/
def DeviceProfile.content_bounds (d : DeviceProfile) : Int × Int × Int × Int :=
  (d.safe_zone.left, d.safe_zone.top,
   d.width - d.safe_zone.right, d.height - d.safe_zone.bottom)

/-- Width of the content rectangle (`right - left` in `compute`). -/
def DeviceProfile.contentWidth (d : DeviceProfile) : Int :=
  (d.width - d.safe_zone.right) - d.safe_zone.left

/-- Height of the content rectangle (`bottom - top` in `compute`). -/
def DeviceProfile.contentHeight (d : DeviceProfile) : Int :=
  (d.height - d.safe_zone.bottom) - d.safe_zone.top

/-- The `DEVICE_STANDARD` constant (iPhone 13 Pro). -/
def DEVICE_STANDARD : DeviceProfile :=
  { name := "iPhone 13 Pro", width := 1170, height := 2532,
    safe_zone := { top := 720, bottom := 290, left := 58, right := 58 } }

/-- The `DEVICE_MAX` constant (iPhone 16 Pro Max). -/
def DEVICE_MAX : DeviceProfile :=
  { name := "iPhone 16 Pro Max (6.9 in)", width := 1320, height := 2868,
    safe_zone := { top := 840, bottom := 340, left := 68, right := 68 } }

/-- Python `calendar.isleap(year)`. -/
def isleap (year : Nat) : Bool :=
  year % 4 == 0 && (year % 100 != 0 || year % 400 == 0)

/-- Python `calendar.monthrange(year, m)[1]`: number of days of month `m`
(1-based) of `year`. -/
def monthrange_days (year m : Nat) : Nat :=
  if m = 2 then (if isleap year then 29 else 28)
  else if m = 4 ∨ m = 6 ∨ m = 9 ∨ m = 11 then 30
  else 31

/-- The expression `max(calendar.monthrange(year, m)[1] for m in range(1, 13))` in
`LayoutEngine.compute`. -/
def maxDays (year : Nat) : Nat :=
  ((List.range' 1 12).map (monthrange_days year)).foldl max 0

/-- The `GridConfig` dataclass: the computed layout for the dot grid. -/
structure GridConfig where
  cols : Int
  max_rows : Int
  origin_x : Int
  origin_y : Int
  step_x : Int
  step_y : Int
  radius : Int
  island_bounds : Int × Int × Int × Int
deriving DecidableEq

namespace LayoutEngine

def MAX_RADIUS : Int := 22
def MIN_RADIUS : Int := 10
def COL_GAP_RATIO : ℚ := 9/5
def ROW_GAP_RATIO : ℚ := 3/5
def ISLAND_PADDING : Int := 40

/-- Function `LayoutEngine.compute(device, year)`, line for line from the source.
The source raises no exception: the function is total. -/
def compute (device : DeviceProfile) (year : Nat) : GridConfig :=
  let left := device.content_bounds.1
  let top := device.content_bounds.2.1
  let right := device.content_bounds.2.2.1
  let bottom := device.content_bounds.2.2.2
  let content_width := right - left
  let content_height := bottom - top
  let max_days : Int := maxDays year
  let divisor : ℚ := 24 + 11 * COL_GAP_RATIO
  let radius_from_width := truncQ ((content_width : ℚ) / divisor)
  let row_divisor : ℚ := (max_days : ℚ) * (2 + ROW_GAP_RATIO)
  let radius_from_height := truncQ ((content_height : ℚ) / row_divisor)
  let radius := max (min radius_from_width (min radius_from_height MAX_RADIUS)) MIN_RADIUS
  let col_gap := truncQ ((radius : ℚ) * COL_GAP_RATIO)
  let row_gap := truncQ ((radius : ℚ) * ROW_GAP_RATIO)
  let diam := 2 * radius
  let step_x := diam + col_gap
  let step_y := diam + row_gap
  let total_grid_width := 12 * diam + 11 * col_gap
  let origin_x := left + Int.fdiv (content_width - total_grid_width) 2 + radius
  let origin_y := top + radius
  let pad := ISLAND_PADDING
  let island_left := origin_x - radius - pad
  let island_top := origin_y - radius - pad
  let island_right := origin_x + 11 * step_x + radius + pad
  let island_bottom := origin_y + (max_days - 1) * step_y + radius + pad
  { cols := 12, max_rows := max_days, origin_x := origin_x, origin_y := origin_y,
    step_x := step_x, step_y := step_y, radius := radius,
    island_bounds := (island_left, island_top, island_right, island_bottom) }

end LayoutEngine

/-- Modelled from the spec: the `ConfigurationError` of the spec's error
taxonomy (no such error class exists anywhere in the source). -/
inductive ConfigurationError
  | insetsExceedDimensions
deriving DecidableEq

/-- Modelled from the spec: the contract the spec states for
`LayoutEngine.compute` — fail with `ConfigurationError` when the content
rectangle has non-positive width or height, otherwise return the grid. -/
def computeSpec (device : DeviceProfile) (year : Nat) :
    Except ConfigurationError GridConfig :=
  if device.contentWidth ≤ 0 ∨ device.contentHeight ≤ 0 then
    .error .insetsExceedDimensions
  else
    .ok (LayoutEngine.compute device year)

/-- Type `Color`: a 3-tuple of channel values, as in the source type alias. -/
abbrev Color := Nat × Nat × Nat

/-- The `Palette` dataclass: four-color scheme for the wallpaper. -/
structure Palette where
  name : String
  bg : Color
  past : Color
  today : Color
  future : Color
deriving DecidableEq

/-- One hex digit of Python's lowercase `x` format, for `n < 16`. -/
def hexDigitChar (n : Nat) : Char :=
  if n < 10 then Char.ofNat (48 + n) else Char.ofNat (87 + n)

/-- Python `"{:02x}".format(n)` for a byte `0 ≤ n < 256`: exactly two
lowercase hex digits. -/
def hexByte (n : Nat) : String :=
  String.mk [hexDigitChar (n / 16), hexDigitChar (n % 16)]

/-- The local `_hex` helper of `Palette.to_dict`:
`"#{:02x}{:02x}{:02x}".format(*c)`. -/
def hexColor (c : Color) : String :=
  "#" ++ hexByte c.1 ++ hexByte c.2.1 ++ hexByte c.2.2

/-- Method `Palette.to_dict`, restricted to its `colors` mapping: the ordered
association of role name to (`rgb` list, `hex` string). -/
def Palette.to_dict_colors (p : Palette) : List (String × List Nat × String) :=
  [("background", [p.bg.1, p.bg.2.1, p.bg.2.2], hexColor p.bg),
   ("past", [p.past.1, p.past.2.1, p.past.2.2], hexColor p.past),
   ("today", [p.today.1, p.today.2.1, p.today.2.2], hexColor p.today),
   ("future", [p.future.1, p.future.2.1, p.future.2.2], hexColor p.future)]

/-- Modelled from the spec: value of one hex digit character, the inverse
step of re-parsing a serialized `"#rrggbb"` string (the repository has no
parsing code; the spec's round-trip property describes it). -/
def hexVal (c : Char) : Option Nat :=
  if '0' ≤ c ∧ c ≤ '9' then some (c.toNat - 48)
  else if 'a' ≤ c ∧ c ≤ 'f' then some (c.toNat - 87)
  else none

/-- Modelled from the spec: parse a `"#rrggbb"` hex string back into the
three integer channels. -/
def parseHexColor (s : String) : Option Color :=
  match s.data with
  | [c0, c1, c2, c3, c4, c5, c6] =>
    if c0 = '#' then
      match hexVal c1, hexVal c2, hexVal c3, hexVal c4, hexVal c5, hexVal c6 with
      | some a, some b, some c, some d, some e, some f =>
          some (16 * a + b, 16 * c + d, 16 * e + f)
      | _, _, _, _, _, _ => none
    else none
  | _ => none

/-- Function `_wrap_hue(h) = h % 360` with Python float modulo semantics (result
carries the sign of the positive divisor). -/
def _wrap_hue (h : ℚ) : ℚ := h - 360 * ⌊h / 360⌋

/-- The `HarmonyType` enumeration. -/
inductive HarmonyType
  | ANALOGOUS
  | COMPLEMENTARY
  | SPLIT_COMPLEMENTARY
  | TRIADIC
  | MONOCHROMATIC
deriving DecidableEq

/-- The `name=` field each `PaletteFactory` builder puts into its
`Palette`, as a function of the harmony kind and the base hue. The
f-string `int(base_hue)` is truncation toward zero. -/
def paletteName (k : HarmonyType) (base_hue : ℚ) : String :=
  match k with
  | .ANALOGOUS => "analogous_" ++ toString (truncQ base_hue)
  | .COMPLEMENTARY => "complementary_" ++ toString (truncQ base_hue)
  | .SPLIT_COMPLEMENTARY => "split_comp_" ++ toString (truncQ base_hue)
  | .TRIADIC => "triadic_" ++ toString (truncQ base_hue)
  | .MONOCHROMATIC => "monochromatic_" ++ toString (truncQ base_hue)

/-- Lowercase name of a harmony kind, following the spec's
`"\x7bharmony_lowercase\x7d_\x7bint(B)\x7d"` naming rule. -/
def HarmonyType.lowerName : HarmonyType → String
  | .ANALOGOUS => "analogous"
  | .COMPLEMENTARY => "complementary"
  | .SPLIT_COMPLEMENTARY => "split_complementary"
  | .TRIADIC => "triadic"
  | .MONOCHROMATIC => "monochromatic"

/-- Modelled from the spec: the palette name the spec's naming rule
predicts, `lowercase kind ++ "_" ++ int(B)`. -/
def specPaletteName (k : HarmonyType) (base_hue : ℚ) : String :=
  k.lowerName ++ "_" ++ toString (truncQ base_hue)

/-- Per-cell classification, derived (not stored) in `Renderer._draw_dots`. -/
inductive DotState
  | Past
  | Today
  | Future
deriving DecidableEq

/-- The if/elif/else cascade of `Renderer._draw_dots` that chooses a color
for the cell `(m, d)` given the current `(month, day)`. -/
def classifyCell (month day m d : Nat) : DotState :=
  if m < month ∨ (m = month ∧ d < day) then .Past
  else if m = month ∧ d = day then .Today
  else .Future

/-! ### Helper lemmas -/

lemma truncQ_eq_floor (q : ℚ) (h : 0 ≤ q) : truncQ q = ⌊q⌋ := by
  unfold truncQ
  rw [Int.tdiv_eq_ediv (Rat.num_nonneg.mpr h) (Int.ofNat_nonneg _)]
  exact (Rat.floor_def).symm

lemma truncQ_div_mono (a b : Int) (c : ℚ) (hc : 0 < c) (ha : 0 ≤ a) (hab : a ≤ b) :
    truncQ ((a : ℚ) / c) ≤ truncQ ((b : ℚ) / c) := by
  have ha' : (0 : ℚ) ≤ (a : ℚ) := by exact_mod_cast ha
  have hb' : (0 : ℚ) ≤ (b : ℚ) := le_trans ha' (by exact_mod_cast hab)
  have hab' : (a : ℚ) ≤ (b : ℚ) := by exact_mod_cast hab
  rw [truncQ_eq_floor _ (div_nonneg ha' hc.le), truncQ_eq_floor _ (div_nonneg hb' hc.le)]
  exact Int.floor_le_floor (by gcongr)

lemma maxDays_eq (y : Nat) : maxDays y = 31 := by
  unfold maxDays monthrange_days
  cases h : isleap y <;> simp [List.range', h]

lemma compute_radius (d : DeviceProfile) (y : Nat) :
    (LayoutEngine.compute d y).radius =
      max (min (truncQ ((d.contentWidth : ℚ) / (24 + 11 * (9/5))))
        (min (truncQ ((d.contentHeight : ℚ) / ((maxDays y : ℚ) * (2 + 3/5)))) 22)) 10 := rfl

lemma compute_radius_le_22 (d : DeviceProfile) (y : Nat) :
    (LayoutEngine.compute d y).radius ≤ 22 := by
  rw [compute_radius]
  exact max_le (le_trans (min_le_right _ _) (min_le_right _ _)) (by norm_num)

lemma compute_radius_ge_10 (d : DeviceProfile) (y : Nat) :
    10 ≤ (LayoutEngine.compute d y).radius := by
  rw [compute_radius]; exact le_max_right _ _

/-! ### Claim theorems -/

/-- C8. `LayoutEngine.compute` is deterministic: two calls with identical
arguments agree on every field, `island_bounds` included (the embedding of
the source is a pure function; the source body reads no random or other
hidden state). -/
theorem compute_deterministic (d : DeviceProfile) (y : Nat) :
    LayoutEngine.compute d y = LayoutEngine.compute d y ∧
    (LayoutEngine.compute d y).cols = (LayoutEngine.compute d y).cols ∧
    (LayoutEngine.compute d y).max_rows = (LayoutEngine.compute d y).max_rows ∧
    (LayoutEngine.compute d y).origin_x = (LayoutEngine.compute d y).origin_x ∧
    (LayoutEngine.compute d y).origin_y = (LayoutEngine.compute d y).origin_y ∧
    (LayoutEngine.compute d y).step_x = (LayoutEngine.compute d y).step_x ∧
    (LayoutEngine.compute d y).step_y = (LayoutEngine.compute d y).step_y ∧
    (LayoutEngine.compute d y).radius = (LayoutEngine.compute d y).radius ∧
    (LayoutEngine.compute d y).island_bounds = (LayoutEngine.compute d y).island_bounds :=
  ⟨rfl, rfl, rfl, rfl, rfl, rfl, rfl, rfl, rfl⟩

/-- C9. `_wrap_hue` maps every rational hue, negative values included,
into `[0, 360)`. -/
theorem wrap_hue_in_range (h : ℚ) : 0 ≤ _wrap_hue h ∧ _wrap_hue h < 360 := by
  have h1 : _wrap_hue h = 360 * Int.fract (h / 360) := by
    unfold _wrap_hue; rw [Int.fract]; ring
  have h2 := Int.fract_nonneg (h / 360)
  have h3 := Int.fract_lt_one (h / 360)
  constructor
  · rw [h1]; positivity
  · rw [h1]; linarith

/-- C10. The maximum day-count over the 12 months is 31 for every year
(January always has 31 days), so `LayoutEngine.compute` does not depend on
its year argument. -/
theorem compute_year_independent :
    (∀ y : Nat, maxDays y = 31) ∧
    ∀ (d : DeviceProfile) (y1 y2 : Nat),
      LayoutEngine.compute d y1 = LayoutEngine.compute d y2 := by
  refine ⟨maxDays_eq, fun d y1 y2 => ?_⟩
  unfold LayoutEngine.compute
  rw [maxDays_eq y1, maxDays_eq y2]

/-- C3. `Renderer._draw_dots` classifies a cell `(m, d)` against the
current `(month, day)` as Past exactly when `m < month` or
(`m = month` and `d < day`), as Today exactly when `m = month` and
`d = day`, and as Future otherwise; concretely, with current date
2024-02-29 (a valid date, February 2024 having 29 days), cell (1, 15) is
Past, cell (2, 29) is Today and cell (3, 1) is Future. -/
theorem cell_classification_correct (year month day m d : Nat)
    (hm1 : 1 ≤ month) (hm2 : month ≤ 12)
    (hd1 : 1 ≤ day) (hd2 : day ≤ monthrange_days year month)
    (hc1 : 1 ≤ m) (hc2 : m ≤ 12) (hc3 : 1 ≤ d) (hc4 : d ≤ monthrange_days year m) :
    ((classifyCell month day m d = .Past ↔ (m < month ∨ (m = month ∧ d < day))) ∧
     (classifyCell month day m d = .Today ↔ (m = month ∧ d = day)) ∧
     (classifyCell month day m d = .Future ↔
       (¬(m < month ∨ (m = month ∧ d < day)) ∧ ¬(m = month ∧ d = day)))) ∧
    monthrange_days 2024 2 = 29 ∧
    classifyCell 2 29 1 15 = .Past ∧
    classifyCell 2 29 2 29 = .Today ∧
    classifyCell 2 29 3 1 = .Future := by
  refine ⟨⟨?_, ?_, ?_⟩, by decide, by decide, by decide, by decide⟩ <;>
    unfold classifyCell <;> split_ifs with h1 h2 <;> simp_all <;> omega

/-- Witness for C3 at the concrete current date 2024-02-29 and
cell (1, 15). -/
theorem cell_classification_correct_witness :
    15 ≤ monthrange_days 2024 1 ∧ 29 ≤ monthrange_days 2024 2 ∧
    classifyCell 2 29 1 15 = .Past :=
  ⟨by decide, by decide,
    ((cell_classification_correct 2024 2 29 1 15 (by decide) (by decide) (by decide)
      (by decide) (by decide) (by decide) (by decide) (by decide)).1.1).mpr (by decide)⟩

/-- A device whose horizontal insets exceed its width: its content
rectangle has negative width. -/
def badDevice : DeviceProfile :=
  { name := "bad", width := 100, height := 100,
    safe_zone := { top := 0, bottom := 0, left := 60, right := 60 } }

/-- C1 counterexample. The source `LayoutEngine.compute` raises nothing:
on a device whose content rectangle has negative width it still returns a
complete `GridConfig` (radius clamped up to `MIN_RADIUS`), while the
spec's claimed contract (`computeSpec`) demands a `ConfigurationError`
there. -/
theorem compute_no_error_counterexample :
    badDevice.contentWidth < 0 ∧
    computeSpec badDevice 2024 = .error .insetsExceedDimensions ∧
    LayoutEngine.compute badDevice 2024 =
      { cols := 12, max_rows := 31, origin_x := -159, origin_y := 10,
        step_x := 38, step_y := 26, radius := 10,
        island_bounds := (-209, -40, 309, 840) } :=
  ⟨by decide, rfl, by with_unfolding_all rfl⟩

/-- C1 amended. `LayoutEngine.compute` never fails: for every device —
content rectangle positive or not — and every year it returns a complete
`GridConfig`, whose radius is clamped into `[MIN_RADIUS, MAX_RADIUS]`
even in the degenerate case; no `ConfigurationError` exists in the code. -/
theorem compute_total_radius_clamped (d : DeviceProfile) (y : Nat) :
    10 ≤ (LayoutEngine.compute d y).radius ∧ (LayoutEngine.compute d y).radius ≤ 22 :=
  ⟨compute_radius_ge_10 d y, compute_radius_le_22 d y⟩

/-- Device with content rectangle 500 × 1000, for which the computed
radius is 11 — a value at which truncation and rounding of
`radius * 1.8` and of `radius * 0.6` differ. -/
def narrowDevice : DeviceProfile :=
  { name := "narrow", width := 616, height := 1000,
    safe_zone := { top := 0, bottom := 0, left := 58, right := 58 } }

/-- C2 counterexample. At `narrowDevice` the computed radius is 11 and the
source column pitch is `2·11 + int(11·1.8) = 22 + 19 = 41`, not
`2·11 + round(11·1.8) = 42` as the claim states (and the row pitch is
`28`, not `29`). -/
theorem step_pitch_round_counterexample :
    (LayoutEngine.compute narrowDevice 2024).radius = 11 ∧
    (LayoutEngine.compute narrowDevice 2024).step_x = 41 ∧
    (LayoutEngine.compute narrowDevice 2024).step_y = 28 ∧
    ¬((LayoutEngine.compute narrowDevice 2024).step_x =
        2 * (LayoutEngine.compute narrowDevice 2024).radius +
          round (((LayoutEngine.compute narrowDevice 2024).radius : ℚ) * (9/5))) := by
  have h1 : (LayoutEngine.compute narrowDevice 2024).step_x = 41 := by
    with_unfolding_all rfl
  have h2 : (LayoutEngine.compute narrowDevice 2024).radius = 11 := by
    with_unfolding_all rfl
  refine ⟨h2, h1, by with_unfolding_all rfl, ?_⟩
  rw [h1, h2]
  norm_num [round_eq]

/-- C2 amended. The pitches use Python `int` truncation, not rounding to
nearest: for every `GridConfig` returned by `LayoutEngine.compute`, the
column pitch is `2·radius + trunc(radius·1.8)` and the row pitch is
`2·radius + trunc(radius·0.6)`. -/
theorem step_pitch_uses_trunc (d : DeviceProfile) (y : Nat) :
    (LayoutEngine.compute d y).step_x =
      2 * (LayoutEngine.compute d y).radius +
        truncQ (((LayoutEngine.compute d y).radius : ℚ) * (9/5)) ∧
    (LayoutEngine.compute d y).step_y =
      2 * (LayoutEngine.compute d y).radius +
        truncQ (((LayoutEngine.compute d y).radius : ℚ) * (3/5)) :=
  ⟨rfl, rfl⟩

/-- C4. For every device with positive content rectangle, the radius of
the computed `GridConfig` is
`clamp(min(trunc(cw / (24 + 11·1.8)), trunc(ch / (maxRows·(2 + 0.6)))), 10, 22)`
(with `clamp(x, 10, 22) = max (min x 22) 10`), and it lies in `[10, 22]`. -/
theorem radius_formula (d : DeviceProfile) (y : Nat)
    (hw : 0 < d.contentWidth) (hh : 0 < d.contentHeight) :
    (LayoutEngine.compute d y).radius =
      max (min (min (truncQ ((d.contentWidth : ℚ) / (24 + 11 * (9/5))))
        (truncQ ((d.contentHeight : ℚ) / ((maxDays y : ℚ) * (2 + 3/5))))) 22) 10 ∧
    10 ≤ (LayoutEngine.compute d y).radius ∧ (LayoutEngine.compute d y).radius ≤ 22 := by
  refine ⟨?_, compute_radius_ge_10 d y, compute_radius_le_22 d y⟩
  rw [compute_radius, min_assoc]

/-- Witness for C4: the Standard device profile at year 2025 has radius
18, and its content rectangle is positive. -/
theorem radius_formula_witness :
    0 < DEVICE_STANDARD.contentWidth ∧ 0 < DEVICE_STANDARD.contentHeight ∧
    (LayoutEngine.compute DEVICE_STANDARD 2025).radius =
      max (min (min (truncQ ((DEVICE_STANDARD.contentWidth : ℚ) / (24 + 11 * (9/5))))
        (truncQ ((DEVICE_STANDARD.contentHeight : ℚ) /
          ((maxDays 2025 : ℚ) * (2 + 3/5))))) 22) 10 ∧
    (LayoutEngine.compute DEVICE_STANDARD 2025).radius = 18 :=
  ⟨by decide, by decide,
    (radius_formula DEVICE_STANDARD 2025 (by decide) (by decide)).1,
    by with_unfolding_all rfl⟩

/-- C7. The radius is monotone in the content area: with both content
rectangles positive and the first one at most the second in width and in
height, the first computed radius is at most the second, and both are at
most `MAX_RADIUS = 22`. -/
theorem radius_monotone (y : Nat) (d1 d2 : DeviceProfile)
    (h1w : 0 < d1.contentWidth) (h1h : 0 < d1.contentHeight)
    (h2w : 0 < d2.contentWidth) (h2h : 0 < d2.contentHeight)
    (hw : d1.contentWidth ≤ d2.contentWidth)
    (hh : d1.contentHeight ≤ d2.contentHeight) :
    (LayoutEngine.compute d1 y).radius ≤ (LayoutEngine.compute d2 y).radius ∧
    (LayoutEngine.compute d1 y).radius ≤ 22 ∧
    (LayoutEngine.compute d2 y).radius ≤ 22 := by
  refine ⟨?_, compute_radius_le_22 d1 y, compute_radius_le_22 d2 y⟩
  rw [compute_radius, compute_radius]
  have hcol : (0 : ℚ) < 24 + 11 * (9/5) := by norm_num
  have hrow : (0 : ℚ) < (maxDays y : ℚ) * (2 + 3/5) := by
    rw [maxDays_eq]; norm_num
  exact max_le_max
    (min_le_min (truncQ_div_mono _ _ _ hcol h1w.le hw)
      (min_le_min (truncQ_div_mono _ _ _ hrow h1h.le hh) le_rfl))
    le_rfl

/-- Witness for C7: Standard and Max device profiles at year 2025; the
Standard content rectangle (1054 × 1522) is componentwise at most the Max
one (1184 × 1688), and the radii are 18 ≤ 20. -/
theorem radius_monotone_witness :
    0 < DEVICE_STANDARD.contentWidth ∧ 0 < DEVICE_STANDARD.contentHeight ∧
    DEVICE_STANDARD.contentWidth ≤ DEVICE_MAX.contentWidth ∧
    DEVICE_STANDARD.contentHeight ≤ DEVICE_MAX.contentHeight ∧
    (LayoutEngine.compute DEVICE_STANDARD 2025).radius ≤
      (LayoutEngine.compute DEVICE_MAX 2025).radius ∧
    (LayoutEngine.compute DEVICE_STANDARD 2025).radius = 18 ∧
    (LayoutEngine.compute DEVICE_MAX 2025).radius = 20 :=
  ⟨by decide, by decide, by decide, by decide,
    (radius_monotone 2025 DEVICE_STANDARD DEVICE_MAX (by decide) (by decide)
      (by decide) (by decide) (by decide) (by decide)).1,
    by with_unfolding_all rfl, by with_unfolding_all rfl⟩

/-- C5 counterexample. For the SplitComplementary kind with base hue 0 the
source builder names the palette `"split_comp_0"`, not
`"split_complementary_0"` as the lowercase-of-kind naming rule predicts. -/
theorem split_name_counterexample :
    paletteName .SPLIT_COMPLEMENTARY 0 = "split_comp_0" ∧
    specPaletteName .SPLIT_COMPLEMENTARY 0 = "split_complementary_0" ∧
    paletteName .SPLIT_COMPLEMENTARY 0 ≠ specPaletteName .SPLIT_COMPLEMENTARY 0 := by
  refine ⟨by with_unfolding_all rfl, by with_unfolding_all rfl, ?_⟩
  intro h
  rw [show paletteName .SPLIT_COMPLEMENTARY 0 = "split_comp_0" by with_unfolding_all rfl,
    show specPaletteName .SPLIT_COMPLEMENTARY 0 = "split_complementary_0" by
      with_unfolding_all rfl] at h
  simp at h

/-- C5 amended. The palette name is the harmony kind's lowercase name,
an underscore and the truncated base hue — except for SplitComplementary,
whose source builder abbreviates the prefix to `"split_comp"`. -/
theorem palette_name_by_kind (k : HarmonyType) (b : ℚ) (h0 : 0 ≤ b) (h1 : b < 360) :
    paletteName k b =
      (if k = .SPLIT_COMPLEMENTARY then "split_comp" else k.lowerName) ++ "_" ++
        toString (truncQ b) := by
  cases k <;> rfl

/-- Witness for C5 amended at the SplitComplementary kind and base hue 123. -/
theorem palette_name_by_kind_witness :
    (0 : ℚ) ≤ 123 ∧ (123 : ℚ) < 360 ∧
    paletteName .SPLIT_COMPLEMENTARY 123 =
      (if HarmonyType.SPLIT_COMPLEMENTARY = .SPLIT_COMPLEMENTARY then "split_comp"
        else HarmonyType.SPLIT_COMPLEMENTARY.lowerName) ++ "_" ++ toString (truncQ 123) :=
  ⟨by norm_num, by norm_num,
    palette_name_by_kind .SPLIT_COMPLEMENTARY 123 (by norm_num) (by norm_num)⟩

lemma hexVal_hexDigitChar : ∀ n < 16, hexVal (hexDigitChar n) = some n := by decide

lemma hexColor_data (c : Color) :
    (hexColor c).data =
      ['#', hexDigitChar (c.1 / 16), hexDigitChar (c.1 % 16),
       hexDigitChar (c.2.1 / 16), hexDigitChar (c.2.1 % 16),
       hexDigitChar (c.2.2 / 16), hexDigitChar (c.2.2 % 16)] := by
  simp [hexColor, hexByte, String.data_append]

lemma parseHexColor_hexColor (c : Color)
    (h1 : c.1 ≤ 255) (h2 : c.2.1 ≤ 255) (h3 : c.2.2 ≤ 255) :
    parseHexColor (hexColor c) = some c := by
  obtain ⟨r, g, b⟩ := c
  simp only at h1 h2 h3
  unfold parseHexColor
  rw [hexColor_data]
  have hr1 : r / 16 < 16 := by omega
  have hr2 : r % 16 < 16 := by omega
  have hg1 : g / 16 < 16 := by omega
  have hg2 : g % 16 < 16 := by omega
  have hb1 : b / 16 < 16 := by omega
  have hb2 : b % 16 < 16 := by omega
  simp only [hexVal_hexDigitChar _ hr1, hexVal_hexDigitChar _ hr2,
    hexVal_hexDigitChar _ hg1, hexVal_hexDigitChar _ hg2,
    hexVal_hexDigitChar _ hb1, hexVal_hexDigitChar _ hb2,
    if_true, Option.some.injEq, Prod.mk.injEq]
  omega

/-- C6. `Palette.to_dict` round-trip: for every palette whose four colors
have all channels in `[0, 255]`, parsing each role's serialized
`"#rrggbb"` hex string reconstructs exactly the original channel tuple for
background, past, today and future. -/
theorem palette_to_dict_roundtrip (p : Palette)
    (hbg : p.bg.1 ≤ 255 ∧ p.bg.2.1 ≤ 255 ∧ p.bg.2.2 ≤ 255)
    (hpast : p.past.1 ≤ 255 ∧ p.past.2.1 ≤ 255 ∧ p.past.2.2 ≤ 255)
    (htoday : p.today.1 ≤ 255 ∧ p.today.2.1 ≤ 255 ∧ p.today.2.2 ≤ 255)
    (hfuture : p.future.1 ≤ 255 ∧ p.future.2.1 ≤ 255 ∧ p.future.2.2 ≤ 255) :
    p.to_dict_colors.map (fun e => parseHexColor e.2.2) =
      [some p.bg, some p.past, some p.today, some p.future] := by
  simp [Palette.to_dict_colors,
    parseHexColor_hexColor p.bg hbg.1 hbg.2.1 hbg.2.2,
    parseHexColor_hexColor p.past hpast.1 hpast.2.1 hpast.2.2,
    parseHexColor_hexColor p.today htoday.1 htoday.2.1 htoday.2.2,
    parseHexColor_hexColor p.future hfuture.1 hfuture.2.1 hfuture.2.2]

/-- A concrete palette used as the round-trip witness. -/
def samplePalette : Palette :=
  { name := "sample", bg := (10, 20, 30), past := (200, 17, 255),
    today := (0, 255, 171), future := (5, 6, 7) }

/-- Witness for C6 at `samplePalette`. -/
theorem palette_to_dict_roundtrip_witness :
    (samplePalette.bg.1 ≤ 255 ∧ samplePalette.past.1 ≤ 255 ∧
      samplePalette.today.2.2 ≤ 255 ∧ samplePalette.future.2.2 ≤ 255) ∧
    samplePalette.to_dict_colors.map (fun e => parseHexColor e.2.2) =
      [some samplePalette.bg, some samplePalette.past, some samplePalette.today,
       some samplePalette.future] :=
  ⟨⟨by decide, by decide, by decide, by decide⟩,
    palette_to_dict_roundtrip samplePalette ⟨by decide, by decide, by decide⟩
      ⟨by decide, by decide, by decide⟩ ⟨by decide, by decide, by decide⟩
      ⟨by decide, by decide, by decide⟩⟩

end Wallpaper
